import Mathlib

/-!
Shallow embedding of `src/c/secp256k1_ripemd160_sha256_sighash_all.c`.

The C program is a CKB lock script: it loads the script arguments (a 20-byte
RIPEMD160 hash), the transaction hash and the first grouped-input witness,
extracts the molecule-encoded lock field, checks the lock length, parses a
compact ECDSA signature and a SEC1 public key out of the lock field, compares
RIPEMD160(SHA256(pubkey)) with the script argument, rebuilds the signed
message (SHA256 over the transaction hash and every length-prefixed witness,
with the signature bytes of witness 0 zero-filled) and finally verifies the
ECDSA signature over that message.

External collaborators (the syscall layer `ckb_syscalls.h`, the molecule
readers in `common.h` and `protocol.h`, and the secp256k1 / SHA256 /
RIPEMD160 primitives) are not part of the verified source; they are modelled
as components of an environment record, following the external-interface
contract of the specification.
-/

namespace SighashAll

/-- A byte buffer, one natural number per byte. -/
abbrev Bytes := List Nat

/-- Size of the transaction hash (`BLAKE2B_BLOCK_SIZE`, line 37). -/
def BLAKE2B_BLOCK_SIZE : Nat := 32

/-- Size of the expected pubkey hash argument (`RIPEMD160_SIZE`, line 38). -/
def RIPEMD160_SIZE : Nat := 20

/-- Size of a SHA256 digest (`SHA256_SIZE`, line 39). -/
def SHA256_SIZE : Nat := 32

/-- Maximal witness size accepted by the script (`MAX_WITNESS_SIZE`, line 43). -/
def MAX_WITNESS_SIZE : Nat := 32768

/-- Size of a recoverable compact signature (line 45). -/
def RECOVERABLE_SIGNATURE_SIZE : Nat := 65

/-- Size of a non-recoverable compact signature (line 46). -/
def NONE_RECOVERABLE_SIGNATURE_SIZE : Nat := 64

/-- Size of a compressed SEC1 public key (line 47). -/
def COMPRESSED_PUBKEY_SIZE : Nat := 33

/-- Size of an uncompressed SEC1 public key (line 48). -/
def NONE_COMPRESSED_PUBKEY_SIZE : Nat := 65

/-- Success return code (`CKB_SUCCESS`). -/
def CKB_SUCCESS : Int := 0

/-- Modelled from the spec: the numeric error codes live in `common.h`, which
is outside `src/`; the spec only requires that each failure kind maps to a
distinct non-zero result code, which the chosen values satisfy.
`ERROR_ARGUMENTS_LEN` is returned when the script argument is not 20 bytes. -/
def ERROR_ARGUMENTS_LEN : Int := -1

/-- Malformed molecule encoding of the script or of the witness. -/
def ERROR_ENCODING : Int := -2

/-- A syscall to the transaction context failed. -/
def ERROR_SYSCALL : Int := -3

/-- ECDSA verification of the sighash failed. -/
def ERROR_SECP_VERIFICATION : Int := -12

/-- The SEC1 public key bytes failed to parse. -/
def ERROR_SECP_PARSE_PUBKEY : Int := -13

/-- The compact signature bytes failed to parse. -/
def ERROR_SECP_PARSE_SIGNATURE : Int := -14

/-- A witness or the lock field has an unacceptable size. -/
def ERROR_WITNESS_SIZE : Int := -22

/-- The computed RIPEMD160(SHA256(pubkey)) differs from the script argument. -/
def ERROR_PUBKEY_RIPEMD160_HASH : Int := -31

/-- Outcome of one `ckb_load_witness` call at an in-range index: either the
witness bytes together with a `CKB_SUCCESS` return code, or a failing
non-zero return code other than the out-of-bound signal.  Modelled from the
spec: the syscall layer is external to `src/`; section 6 describes
`GetWitness` as dense indices per scope returning bytes or `EndOfSequence`,
with any other environment failure fatal.  The dense-list model below renders
`EndOfSequence` (`CKB_INDEX_OUT_OF_BOUND`) as the end of the list. -/
inductive WItem where
  | ok (data : Bytes)
  | err (code : Int)
deriving DecidableEq

/-- The environment of one verification run: the immutable transaction
snapshot plus the external collaborators (molecule readers and cryptographic
primitives), each modelled from the spec as an abstract component because its
code lives outside `src/`.
* `ckb_load_script_ret`: return code of `ckb_load_script` (line 75).
* `mol_script_verify_ok`: whether `MolReader_Script_verify` returns `MOL_OK`.
* `args_bytes`: raw bytes of the script args field (lines 84-85).
* `ckb_load_tx_hash_ret`: return code of `ckb_load_tx_hash` (line 91).
* `tx_hash`: the 32-byte transaction hash.
* `group_witnesses`: the dense witness sequence of scope
  `CKB_SOURCE_GROUP_INPUT`; index `i` beyond the list is the out-of-bound
  signal.
* `input_witnesses`: the dense witness sequence of scope `CKB_SOURCE_INPUT`.
* `inputs_len`: value of `calculate_inputs_len()` (line 190).
* `extract_witness_lock`: the molecule lock-field extractor of `common.h`,
  returning the offset and size of the lock bytes inside the witness, or
  `none` on malformed encoding.
* `secp_init_ret`: return code of
  `ckb_secp256k1_custom_verify_only_initialize` (line 118).
* `parse_compact_ok`: whether `secp256k1_ecdsa_signature_parse_compact`
  succeeds on its 64-byte input (line 124).
* `parse_pubkey_ok`: whether `secp256k1_ec_pubkey_parse` succeeds on the
  pubkey bytes (lines 136-145).
* `sha256`, `ripemd160`: the hash primitives as pure byte functions.
* `ecdsa_verify`: `secp256k1_ecdsa_verify` as a predicate on the 64
  signature bytes, the 32-byte message and the pubkey bytes (line 211). -/
structure Env where
  ckb_load_script_ret : Int
  mol_script_verify_ok : Bool
  args_bytes : Bytes
  ckb_load_tx_hash_ret : Int
  tx_hash : Bytes
  group_witnesses : List WItem
  input_witnesses : List WItem
  inputs_len : Nat
  extract_witness_lock : Bytes → Option (Nat × Nat)
  secp_init_ret : Int
  parse_compact_ok : Bytes → Bool
  parse_pubkey_ok : Bytes → Bool
  sha256 : Bytes → Bytes
  ripemd160 : Bytes → Bytes
  ecdsa_verify : Bytes → Bytes → Bytes → Bool

/-- The molecule segment `lock_bytes_seg` (line 103): the `sz` lock bytes
starting at offset `off` inside the witness buffer. -/
def lock_bytes_seg (w : Bytes) (off sz : Nat) : Bytes :=
  (w.drop off).take sz

/-- The 8 bytes hashed by `sha256_update(ctx, (unsigned char *)&len, 8)`
(lines 170, 184, 203): the little-endian memory image of the 64-bit witness
length. -/
def le8 (n : Nat) : Bytes :=
  [n % 256, n / 256 % 256, n / 256 ^ 2 % 256, n / 256 ^ 3 % 256,
   n / 256 ^ 4 % 256, n / 256 ^ 5 % 256, n / 256 ^ 6 % 256, n / 256 ^ 7 % 256]

/-- `signature_len` as selected by the branch on `lock_len` (lines 132-142):
the lock length minus the uncompressed pubkey size when the lock is
signature plus uncompressed key, else minus the compressed pubkey size. -/
def signatureLenOf (lock_len : Nat) : Nat :=
  if lock_len = RECOVERABLE_SIGNATURE_SIZE + NONE_COMPRESSED_PUBKEY_SIZE ∨
      lock_len = NONE_RECOVERABLE_SIGNATURE_SIZE + NONE_COMPRESSED_PUBKEY_SIZE then
    lock_len - NONE_COMPRESSED_PUBKEY_SIZE
  else
    lock_len - COMPRESSED_PUBKEY_SIZE

/-- `memset(lock_bytes_seg.ptr, 0, signature_len)` (line 169) on the witness
buffer: the bytes before the lock offset, then `n` zero bytes, then the bytes
from offset `off + n` on. -/
def zeroFill (w : Bytes) (off n : Nat) : Bytes :=
  w.take off ++ List.replicate n 0 ++ w.drop (off + n)

/-- Specification-side description of the zero-filled first witness, following
the spec words: byte `j` is zero exactly when it lies in the signature
sub-field `[off, off + n)`, every other byte keeps its original value, and
the length is unchanged. -/
def zeroFillSpec (w : Bytes) (off n : Nat) : Bytes :=
  (List.range w.length).map fun j => if off ≤ j ∧ j < off + n then 0 else w.getD j 0

/-- The length-prefixed concatenation of a list of witnesses: each witness
contributes its 8-byte little-endian length followed by its bytes, exactly as
the digest loops feed them to `sha256_update`. -/
def lenPrefixed (ds : List Bytes) : Bytes :=
  (ds.map fun d => le8 d.length ++ d).flatten

/-- The grouped-input digest loop (lines 174-187): `ckb_load_witness` at
group indices 1, 2, ... until the out-of-bound signal, which ends the loop
normally; any other load failure returns `ERROR_SYSCALL`; each loaded witness
contributes its 8-byte little-endian length followed by its bytes. -/
def digestGroup : List WItem → Except Int Bytes
  | [] => .ok []
  | WItem.err _ :: _ => .error ERROR_SYSCALL
  | WItem.ok d :: rest =>
    match digestGroup rest with
    | .error c => .error c
    | .ok tail => .ok (le8 d.length ++ d ++ tail)

/-- The trailing-witness digest loop (lines 191-206): like the grouped loop
but over `CKB_SOURCE_INPUT` indices from `calculate_inputs_len()` on, and
with the explicit size check `len > MAX_WITNESS_SIZE` (line 200) after a
successful load, returning `ERROR_WITNESS_SIZE` on an oversized witness. -/
def digestTrailing : List WItem → Except Int Bytes
  | [] => .ok []
  | WItem.err _ :: _ => .error ERROR_SYSCALL
  | WItem.ok d :: rest =>
    if d.length > MAX_WITNESS_SIZE then .error ERROR_WITNESS_SIZE
    else
      match digestTrailing rest with
      | .error c => .error c
      | .ok tail => .ok (le8 d.length ++ d ++ tail)

/-- Lines 108-215 of `main`, from the lock-length check on, for a first
witness `w` whose lock field sits at `(lock_off, lock_len)` and a remaining
grouped-witness sequence `rest`. -/
def verifyAfterLock (e : Env) (w : Bytes) (rest : List WItem)
    (lock_off lock_len : Nat) : Int :=
  if lock_len ≠ RECOVERABLE_SIGNATURE_SIZE + NONE_COMPRESSED_PUBKEY_SIZE ∧
      lock_len ≠ RECOVERABLE_SIGNATURE_SIZE + COMPRESSED_PUBKEY_SIZE ∧
      lock_len ≠ NONE_RECOVERABLE_SIGNATURE_SIZE + NONE_COMPRESSED_PUBKEY_SIZE ∧
      lock_len ≠ NONE_RECOVERABLE_SIGNATURE_SIZE + COMPRESSED_PUBKEY_SIZE then
    ERROR_WITNESS_SIZE
  else if e.secp_init_ret ≠ 0 then e.secp_init_ret
  else if e.parse_compact_ok ((lock_bytes_seg w lock_off lock_len).take 64) = false then
    ERROR_SECP_PARSE_SIGNATURE
  else
    let signature_len := signatureLenOf lock_len
    let pubkey_bytes := (lock_bytes_seg w lock_off lock_len).drop signature_len
    if e.parse_pubkey_ok pubkey_bytes = false then ERROR_SECP_PARSE_PUBKEY
    else if e.args_bytes ≠ (e.ripemd160 (e.sha256 pubkey_bytes)).take RIPEMD160_SIZE then
      ERROR_PUBKEY_RIPEMD160_HASH
    else
      match digestGroup rest with
      | .error c => c
      | .ok group_tail =>
        match digestTrailing (e.input_witnesses.drop e.inputs_len) with
        | .error c => c
        | .ok trailing_tail =>
          if e.ecdsa_verify ((lock_bytes_seg w lock_off lock_len).take 64)
              (e.sha256 (e.tx_hash ++ le8 w.length ++
                zeroFill w lock_off signature_len ++ group_tail ++ trailing_tail))
              pubkey_bytes = false then
            ERROR_SECP_VERIFICATION
          else CKB_SUCCESS

/-- The whole of `main` (lines 61-216).  The gates appear in source order:
script load, molecule verification of the script, args length, transaction
hash load, witness 0 load (any non-success return, the out-of-bound signal
included, is `ERROR_SYSCALL`), lock extraction, then `verifyAfterLock`. -/
def main (e : Env) : Int :=
  if e.ckb_load_script_ret ≠ CKB_SUCCESS then ERROR_SYSCALL
  else if e.mol_script_verify_ok = false then ERROR_ENCODING
  else if e.args_bytes.length ≠ RIPEMD160_SIZE then ERROR_ARGUMENTS_LEN
  else if e.ckb_load_tx_hash_ret ≠ CKB_SUCCESS then ERROR_SYSCALL
  else
    match e.group_witnesses with
    | [] => ERROR_SYSCALL
    | WItem.err _ :: _ => ERROR_SYSCALL
    | WItem.ok witness :: rest =>
      match e.extract_witness_lock witness with
      | none => ERROR_ENCODING
      | some (lock_off, lock_len) => verifyAfterLock e witness rest lock_off lock_len

/-- The lock segments produced by the molecule extractor lie inside the
witness they were extracted from; this is the only well-formedness fact about
the external decoder that the frame theorems use. -/
def Env.lockInRange (e : Env) : Prop :=
  ∀ w off sz, e.extract_witness_lock w = some (off, sz) → off + sz ≤ w.length

/-- Lines 108-215 rendered the way the specification words the frame property:
the scratch digest copy of the first witness is built pointwise up front
(`zeroFillSpec`), before any parse or hash check, and every check reads the
original witness bytes; only the digest consumes the scratch copy. -/
def verifyAfterLockSpec (e : Env) (w : Bytes) (rest : List WItem)
    (lock_off lock_len : Nat) : Int :=
  let scratch := zeroFillSpec w lock_off (signatureLenOf lock_len)
  if lock_len ≠ RECOVERABLE_SIGNATURE_SIZE + NONE_COMPRESSED_PUBKEY_SIZE ∧
      lock_len ≠ RECOVERABLE_SIGNATURE_SIZE + COMPRESSED_PUBKEY_SIZE ∧
      lock_len ≠ NONE_RECOVERABLE_SIGNATURE_SIZE + NONE_COMPRESSED_PUBKEY_SIZE ∧
      lock_len ≠ NONE_RECOVERABLE_SIGNATURE_SIZE + COMPRESSED_PUBKEY_SIZE then
    ERROR_WITNESS_SIZE
  else if e.secp_init_ret ≠ 0 then e.secp_init_ret
  else if e.parse_compact_ok ((lock_bytes_seg w lock_off lock_len).take 64) = false then
    ERROR_SECP_PARSE_SIGNATURE
  else
    let pubkey_bytes := (lock_bytes_seg w lock_off lock_len).drop (signatureLenOf lock_len)
    if e.parse_pubkey_ok pubkey_bytes = false then ERROR_SECP_PARSE_PUBKEY
    else if e.args_bytes ≠ (e.ripemd160 (e.sha256 pubkey_bytes)).take RIPEMD160_SIZE then
      ERROR_PUBKEY_RIPEMD160_HASH
    else
      match digestGroup rest with
      | .error c => c
      | .ok group_tail =>
        match digestTrailing (e.input_witnesses.drop e.inputs_len) with
        | .error c => c
        | .ok trailing_tail =>
          if e.ecdsa_verify ((lock_bytes_seg w lock_off lock_len).take 64)
              (e.sha256 (e.tx_hash ++ le8 w.length ++
                scratch ++ group_tail ++ trailing_tail))
              pubkey_bytes = false then
            ERROR_SECP_VERIFICATION
          else CKB_SUCCESS

/-- `main` with the scratch-copy rendering of the zero-fill. -/
def mainScratchSpec (e : Env) : Int :=
  if e.ckb_load_script_ret ≠ CKB_SUCCESS then ERROR_SYSCALL
  else if e.mol_script_verify_ok = false then ERROR_ENCODING
  else if e.args_bytes.length ≠ RIPEMD160_SIZE then ERROR_ARGUMENTS_LEN
  else if e.ckb_load_tx_hash_ret ≠ CKB_SUCCESS then ERROR_SYSCALL
  else
    match e.group_witnesses with
    | [] => ERROR_SYSCALL
    | WItem.err _ :: _ => ERROR_SYSCALL
    | WItem.ok witness :: rest =>
      match e.extract_witness_lock witness with
      | none => ERROR_ENCODING
      | some (lock_off, lock_len) => verifyAfterLockSpec e witness rest lock_off lock_len

lemma zeroFill_length (w : Bytes) (off n : Nat) (h : off + n ≤ w.length) :
    (zeroFill w off n).length = w.length := by
  simp [zeroFill]
  omega

lemma zeroFill_eq_spec (w : Bytes) (off n : Nat) (h : off + n ≤ w.length) :
    zeroFill w off n = zeroFillSpec w off n := by
  have hto : (w.take off).length = off := by simp; omega
  apply List.ext_getElem
  · rw [zeroFill_length w off n h]
    simp [zeroFillSpec]
  · intro i h1 h2
    have hi : i < w.length := by rw [← zeroFill_length w off n h]; exact h1
    simp only [zeroFillSpec, List.getElem_map, List.getElem_range]
    rw [List.getD_eq_getElem w 0 hi]
    unfold zeroFill
    by_cases hc1 : i < off
    · rw [List.getElem_append_left (by simp [hto]; omega),
        List.getElem_append_left (by rw [hto]; exact hc1), List.getElem_take]
      rw [if_neg (by omega)]
    · by_cases hc2 : i < off + n
      · rw [List.getElem_append_left (by simp [hto]; omega),
          List.getElem_append_right (by rw [hto]; omega), List.getElem_replicate]
        rw [if_pos ⟨by omega, hc2⟩]
      · rw [List.getElem_append_right (by simp [hto]; omega), List.getElem_drop]
        rw [if_neg (by omega)]
        congr 1
        simp [hto]
        omega

lemma zeroFill_frame (w : Bytes) (off n j : Nat) (h : off + n ≤ w.length)
    (hj : j < w.length) :
    (zeroFill w off n).getD j 0 =
      if off ≤ j ∧ j < off + n then 0 else w.getD j 0 := by
  rw [zeroFill_eq_spec w off n h]
  have hj2 : j < (zeroFillSpec w off n).length := by simp [zeroFillSpec]; exact hj
  rw [List.getD_eq_getElem _ 0 hj2]
  simp only [zeroFillSpec, List.getElem_map, List.getElem_range]

lemma verifyAfterLock_eq_spec (e : Env) (w : Bytes) (rest : List WItem)
    (lock_off lock_len : Nat) (h : lock_off + signatureLenOf lock_len ≤ w.length) :
    verifyAfterLock e w rest lock_off lock_len =
      verifyAfterLockSpec e w rest lock_off lock_len := by
  simp only [verifyAfterLock, verifyAfterLockSpec]
  rw [zeroFill_eq_spec w lock_off (signatureLenOf lock_len) h]

lemma signatureLenOf_le (lock_len : Nat) : signatureLenOf lock_len ≤ lock_len := by
  unfold signatureLenOf
  split <;> omega

lemma main_eq_scratchSpec (e : Env) (hr : e.lockInRange) :
    main e = mainScratchSpec e := by
  cases hgw : e.group_witnesses with
  | nil => simp [main, mainScratchSpec, hgw]
  | cons i rest =>
    cases i with
    | err c => simp [main, mainScratchSpec, hgw]
    | ok w =>
      cases hex : e.extract_witness_lock w with
      | none => simp [main, mainScratchSpec, hgw, hex]
      | some p =>
        obtain ⟨off, sz⟩ := p
        have hle : off + signatureLenOf sz ≤ w.length := by
          have h1 := hr w off sz hex
          have h2 := signatureLenOf_le sz
          omega
        simp only [main, mainScratchSpec, hgw, hex]
        rw [verifyAfterLock_eq_spec e w rest off sz hle]

lemma set_outside_take (w : Bytes) (i a t : Nat) (h : t ≤ i) :
    (w.set i a).take t = w.take t := by
  apply List.ext_getElem
  · simp
  · intro j h1 h2
    rw [List.getElem_take, List.getElem_take]
    exact List.getElem_set_ne (by simp at h1; omega) _

lemma set_outside_drop (w : Bytes) (i a d : Nat) (h : i < d) :
    (w.set i a).drop d = w.drop d := by
  apply List.ext_getElem
  · simp
  · intro j h1 h2
    rw [List.getElem_drop, List.getElem_drop]
    exact List.getElem_set_ne (by omega) _

lemma zeroFill_set (w : Bytes) (off n b : Nat) (hn : 64 < n) :
    zeroFill (w.set (off + 64) b) off n = zeroFill w off n := by
  unfold zeroFill
  rw [set_outside_take w (off + 64) b off (by omega),
    set_outside_drop w (off + 64) b (off + n) (by omega)]

lemma lock_bytes_take64_set (w : Bytes) (off sz b : Nat) :
    (lock_bytes_seg (w.set (off + 64) b) off sz).take 64 =
      (lock_bytes_seg w off sz).take 64 := by
  unfold lock_bytes_seg
  apply List.ext_getElem
  · simp
  · intro j h1 h2
    have hj : j < 64 := by simp at h1; omega
    rw [List.getElem_take, List.getElem_take, List.getElem_take, List.getElem_take,
      List.getElem_drop, List.getElem_drop]
    exact List.getElem_set_ne (by omega) _

lemma lock_bytes_drop_set (w : Bytes) (off sz b k : Nat) (hk : 64 < k) :
    (lock_bytes_seg (w.set (off + 64) b) off sz).drop k =
      (lock_bytes_seg w off sz).drop k := by
  unfold lock_bytes_seg
  apply List.ext_getElem
  · simp
  · intro j h1 h2
    rw [List.getElem_drop, List.getElem_drop, List.getElem_take, List.getElem_take,
      List.getElem_drop, List.getElem_drop]
    exact List.getElem_set_ne (by omega) _

lemma main_eq_verifyAfterLock (e : Env) {w : Bytes} {rest : List WItem} {off sz : Nat}
    (h1 : e.ckb_load_script_ret = CKB_SUCCESS) (h2 : e.mol_script_verify_ok = true)
    (h3 : e.args_bytes.length = RIPEMD160_SIZE) (h4 : e.ckb_load_tx_hash_ret = CKB_SUCCESS)
    (h5 : e.group_witnesses = WItem.ok w :: rest)
    (h6 : e.extract_witness_lock w = some (off, sz)) :
    main e = verifyAfterLock e w rest off sz := by
  simp [main, h1, h2, h3, h4, h5, h6]

lemma digestGroup_map_ok (gs : List Bytes) :
    digestGroup (gs.map WItem.ok) = .ok (lenPrefixed gs) := by
  induction gs with
  | nil => simp [digestGroup, lenPrefixed]
  | cons d rest ih => simp [digestGroup, lenPrefixed, ih, List.append_assoc]

lemma digestTrailing_map_ok (ts : List Bytes)
    (h : ∀ d ∈ ts, d.length ≤ MAX_WITNESS_SIZE) :
    digestTrailing (ts.map WItem.ok) = .ok (lenPrefixed ts) := by
  induction ts with
  | nil => simp [digestTrailing, lenPrefixed]
  | cons d rest ih =>
    have hd : ¬ d.length > MAX_WITNESS_SIZE := by
      have := h d (by simp)
      omega
    have ih2 := ih fun x hx => h x (by simp [hx])
    simp [digestTrailing, lenPrefixed, hd, ih2, List.append_assoc]

lemma digestGroup_first_err (gs : List Bytes) (c : Int) (l2 : List WItem) :
    digestGroup (gs.map WItem.ok ++ WItem.err c :: l2) = .error ERROR_SYSCALL := by
  induction gs with
  | nil => simp [digestGroup]
  | cons d rest ih => simp [digestGroup, ih]

lemma digestTrailing_first_err (ts : List Bytes) (c : Int) (l2 : List WItem)
    (h : ∀ d ∈ ts, d.length ≤ MAX_WITNESS_SIZE) :
    digestTrailing (ts.map WItem.ok ++ WItem.err c :: l2) = .error ERROR_SYSCALL := by
  induction ts with
  | nil => simp [digestTrailing]
  | cons d rest ih =>
    have hd : ¬ d.length > MAX_WITNESS_SIZE := by
      have := h d (by simp)
      omega
    have ih2 := ih fun x hx => h x (by simp [hx])
    simp [digestTrailing, hd, ih2]

lemma digestGroup_error_code :
    ∀ (l : List WItem) (c : Int), digestGroup l = .error c → c = ERROR_SYSCALL := by
  intro l
  induction l with
  | nil => intro c h; simp [digestGroup] at h
  | cons i rest ih =>
    intro c h
    cases i with
    | err c2 => simp [digestGroup] at h; omega
    | ok d =>
      rw [digestGroup] at h
      cases hrest : digestGroup rest with
      | error c2 => rw [hrest] at h; cases h; exact ih _ hrest
      | ok tail => rw [hrest] at h; cases h

lemma digestTrailing_error_code :
    ∀ (l : List WItem) (c : Int), digestTrailing l = .error c →
      c = ERROR_SYSCALL ∨ c = ERROR_WITNESS_SIZE := by
  intro l
  induction l with
  | nil => intro c h; simp [digestTrailing] at h
  | cons i rest ih =>
    intro c h
    cases i with
    | err c2 => simp [digestTrailing] at h; omega
    | ok d =>
      rw [digestTrailing] at h
      by_cases hd : d.length > MAX_WITNESS_SIZE
      · rw [if_pos hd] at h
        cases h
        right
        rfl
      · rw [if_neg hd] at h
        cases hrest : digestTrailing rest with
        | error c2 => rw [hrest] at h; cases h; exact ih _ hrest
        | ok tail => rw [hrest] at h; cases h

lemma lockLen_ok_cases (sz : Nat) (hsz : sz = 97 ∨ sz = 98 ∨ sz = 129 ∨ sz = 130) :
    ¬(sz ≠ RECOVERABLE_SIGNATURE_SIZE + NONE_COMPRESSED_PUBKEY_SIZE ∧
      sz ≠ RECOVERABLE_SIGNATURE_SIZE + COMPRESSED_PUBKEY_SIZE ∧
      sz ≠ NONE_RECOVERABLE_SIGNATURE_SIZE + NONE_COMPRESSED_PUBKEY_SIZE ∧
      sz ≠ NONE_RECOVERABLE_SIGNATURE_SIZE + COMPRESSED_PUBKEY_SIZE) := by
  unfold RECOVERABLE_SIGNATURE_SIZE NONE_RECOVERABLE_SIGNATURE_SIZE
    COMPRESSED_PUBKEY_SIZE NONE_COMPRESSED_PUBKEY_SIZE
  omega

/-- A fully concrete environment in which every step succeeds: a 97-byte
first witness whose whole content is the lock field (offset 0, size 97),
constant hash primitives, and accepting parse and verify oracles. -/
def baseEnv : Env where
  ckb_load_script_ret := 0
  mol_script_verify_ok := true
  args_bytes := List.replicate 20 7
  ckb_load_tx_hash_ret := 0
  tx_hash := List.replicate 32 1
  group_witnesses := [WItem.ok (List.replicate 97 2)]
  input_witnesses := []
  inputs_len := 0
  extract_witness_lock := fun w => if w.length = 97 then some (0, 97) else none
  secp_init_ret := 0
  parse_compact_ok := fun _ => true
  parse_pubkey_ok := fun _ => true
  sha256 := fun _ => List.replicate 32 3
  ripemd160 := fun _ => List.replicate 20 7
  ecdsa_verify := fun _ _ _ => true

/-- A witness one byte longer than `MAX_WITNESS_SIZE`. -/
def bigWitness : Bytes := List.replicate 32769 2

/-- `baseEnv` with the first grouped-input witness replaced by the oversized
`bigWitness`, whose first 97 bytes form the lock field. -/
def envOversized : Env :=
  { baseEnv with
    group_witnesses := [WItem.ok bigWitness]
    extract_witness_lock := fun _ => some (0, 97) }

lemma bigWitness_length : bigWitness.length = 32769 := by
  rw [bigWitness, List.length_replicate]

/-- C4.  Lock-field decode: a run that reaches the lock-length check fails
with the `ERROR_WITNESS_SIZE` code unless the lock length is exactly 97, 98,
129 or 130; `signature_len` is the lock length minus 33 for lengths 97 and
98 and minus 65 for lengths 129 and 130; and the pubkey sub-slice
`lock_bytes + signature_len` is the final 33 (respectively 65) bytes of the
lock field. -/
theorem claim_C4_lock_length_decode (e : Env) (w : Bytes) (rest : List WItem)
    (off sz : Nat)
    (h1 : e.ckb_load_script_ret = CKB_SUCCESS) (h2 : e.mol_script_verify_ok = true)
    (h3 : e.args_bytes.length = RIPEMD160_SIZE) (h4 : e.ckb_load_tx_hash_ret = CKB_SUCCESS)
    (h5 : e.group_witnesses = WItem.ok w :: rest)
    (h6 : e.extract_witness_lock w = some (off, sz))
    (hrange : off + sz ≤ w.length) :
    (¬(sz = 97 ∨ sz = 98 ∨ sz = 129 ∨ sz = 130) → main e = ERROR_WITNESS_SIZE) ∧
    (signatureLenOf 97 = 97 - 33 ∧ signatureLenOf 98 = 98 - 33 ∧
      signatureLenOf 129 = 129 - 65 ∧ signatureLenOf 130 = 130 - 65) ∧
    ((sz = 129 ∨ sz = 130) →
      ((lock_bytes_seg w off sz).drop (signatureLenOf sz)).length =
        NONE_COMPRESSED_PUBKEY_SIZE ∧
      signatureLenOf sz = sz - NONE_COMPRESSED_PUBKEY_SIZE) ∧
    ((sz = 97 ∨ sz = 98) →
      ((lock_bytes_seg w off sz).drop (signatureLenOf sz)).length =
        COMPRESSED_PUBKEY_SIZE ∧
      signatureLenOf sz = sz - COMPRESSED_PUBKEY_SIZE) := by
  refine ⟨?_, by decide, ?_, ?_⟩
  · intro hbad
    rw [main_eq_verifyAfterLock e h1 h2 h3 h4 h5 h6]
    simp only [verifyAfterLock]
    rw [if_pos (by
      unfold RECOVERABLE_SIGNATURE_SIZE NONE_RECOVERABLE_SIGNATURE_SIZE
        COMPRESSED_PUBKEY_SIZE NONE_COMPRESSED_PUBKEY_SIZE
      omega)]
  · intro h
    constructor
    · rcases h with h | h <;> subst h <;>
        simp [lock_bytes_seg, signatureLenOf, RECOVERABLE_SIGNATURE_SIZE,
          NONE_RECOVERABLE_SIGNATURE_SIZE, COMPRESSED_PUBKEY_SIZE,
          NONE_COMPRESSED_PUBKEY_SIZE] <;> omega
    · rcases h with h | h <;> subst h <;> decide
  · intro h
    constructor
    · rcases h with h | h <;> subst h <;>
        simp [lock_bytes_seg, signatureLenOf, RECOVERABLE_SIGNATURE_SIZE,
          NONE_RECOVERABLE_SIGNATURE_SIZE, COMPRESSED_PUBKEY_SIZE,
          NONE_COMPRESSED_PUBKEY_SIZE] <;> omega
    · rcases h with h | h <;> subst h <;> decide

/-- Witness for C4 at the concrete `baseEnv`. -/
theorem claim_C4_witness :
    (signatureLenOf 97 = 97 - 33 ∧ signatureLenOf 98 = 98 - 33 ∧
      signatureLenOf 129 = 129 - 65 ∧ signatureLenOf 130 = 130 - 65) ∧
    ((97 = 97 ∨ 97 = 98) →
      ((lock_bytes_seg (List.replicate 97 2) 0 97).drop (signatureLenOf 97)).length =
        COMPRESSED_PUBKEY_SIZE ∧
      signatureLenOf 97 = 97 - COMPRESSED_PUBKEY_SIZE) := by
  have h := claim_C4_lock_length_decode baseEnv (List.replicate 97 2) [] 0 97
    rfl rfl (by decide) rfl rfl (by decide) (by decide)
  exact ⟨h.2.1, h.2.2.2⟩

/-- C2.  Pubkey-hash gating: with the run reaching the hash comparison and
the computed RIPEMD160(SHA256(pubkey)) differing from the script argument,
the result is `ERROR_PUBKEY_RIPEMD160_HASH` whatever the ECDSA verifier
would answer (so signature verification is never consulted), and that code
is distinct from the signature-verification failure code and from success. -/
theorem claim_C2_pubkey_hash_gates_signature (e : Env) (w : Bytes)
    (rest : List WItem) (off sz : Nat)
    (h1 : e.ckb_load_script_ret = CKB_SUCCESS) (h2 : e.mol_script_verify_ok = true)
    (h3 : e.args_bytes.length = RIPEMD160_SIZE) (h4 : e.ckb_load_tx_hash_ret = CKB_SUCCESS)
    (h5 : e.group_witnesses = WItem.ok w :: rest)
    (h6 : e.extract_witness_lock w = some (off, sz))
    (hsz : sz = 97 ∨ sz = 98 ∨ sz = 129 ∨ sz = 130)
    (hsecp : e.secp_init_ret = 0)
    (hsig : e.parse_compact_ok ((lock_bytes_seg w off sz).take 64) = true)
    (hpk : e.parse_pubkey_ok ((lock_bytes_seg w off sz).drop (signatureLenOf sz)) = true)
    (hmm : e.args_bytes ≠
      (e.ripemd160 (e.sha256 ((lock_bytes_seg w off sz).drop (signatureLenOf sz)))).take
        RIPEMD160_SIZE) :
    (∀ v : Bytes → Bytes → Bytes → Bool,
      main { e with ecdsa_verify := v } = ERROR_PUBKEY_RIPEMD160_HASH) ∧
    ERROR_PUBKEY_RIPEMD160_HASH ≠ ERROR_SECP_VERIFICATION ∧
    ERROR_PUBKEY_RIPEMD160_HASH ≠ CKB_SUCCESS := by
  refine ⟨?_, by decide, by decide⟩
  intro v
  rw [main_eq_verifyAfterLock { e with ecdsa_verify := v } h1 h2 h3 h4 h5 h6]
  simp only [verifyAfterLock]
  rw [if_neg (lockLen_ok_cases sz hsz), if_neg (by simp [hsecp]),
    if_neg (by simp [hsig]), if_neg (by simp [hpk]), if_pos (by simpa using hmm)]

/-- Witness for C2: `baseEnv` with a wrong 20-byte script argument. -/
theorem claim_C2_witness :
    (∀ v : Bytes → Bytes → Bytes → Bool,
      main { { baseEnv with args_bytes := List.replicate 20 9 } with
        ecdsa_verify := v } = ERROR_PUBKEY_RIPEMD160_HASH) ∧
    ERROR_PUBKEY_RIPEMD160_HASH ≠ ERROR_SECP_VERIFICATION ∧
    ERROR_PUBKEY_RIPEMD160_HASH ≠ CKB_SUCCESS := by
  exact claim_C2_pubkey_hash_gates_signature
    { baseEnv with args_bytes := List.replicate 20 9 }
    (List.replicate 97 2) [] 0 97 rfl rfl (by decide) rfl rfl (by decide)
    (by decide) rfl (by decide) (by decide) (by decide)

/-- C5.  Pubkey-hash computation: once the run reaches the hash check, it
returns `ERROR_PUBKEY_RIPEMD160_HASH` exactly when the 20-byte script
argument differs from RIPEMD160(SHA256(pubkey sub-slice)), the pubkey
sub-slice being the lock bytes from offset `signature_len` to the end. -/
theorem claim_C5_pubkey_hash_computation (e : Env) (w : Bytes)
    (rest : List WItem) (off sz : Nat)
    (h1 : e.ckb_load_script_ret = CKB_SUCCESS) (h2 : e.mol_script_verify_ok = true)
    (h3 : e.args_bytes.length = RIPEMD160_SIZE) (h4 : e.ckb_load_tx_hash_ret = CKB_SUCCESS)
    (h5 : e.group_witnesses = WItem.ok w :: rest)
    (h6 : e.extract_witness_lock w = some (off, sz))
    (hsz : sz = 97 ∨ sz = 98 ∨ sz = 129 ∨ sz = 130)
    (hsecp : e.secp_init_ret = 0)
    (hsig : e.parse_compact_ok ((lock_bytes_seg w off sz).take 64) = true)
    (hpk : e.parse_pubkey_ok ((lock_bytes_seg w off sz).drop (signatureLenOf sz)) = true) :
    main e = ERROR_PUBKEY_RIPEMD160_HASH ↔
      e.args_bytes ≠
        (e.ripemd160 (e.sha256 ((lock_bytes_seg w off sz).drop (signatureLenOf sz)))).take
          RIPEMD160_SIZE := by
  rw [main_eq_verifyAfterLock e h1 h2 h3 h4 h5 h6]
  simp only [verifyAfterLock]
  rw [if_neg (lockLen_ok_cases sz hsz), if_neg (by simp [hsecp]),
    if_neg (by simp [hsig]), if_neg (by simp [hpk])]
  by_cases hmm : e.args_bytes =
      (e.ripemd160 (e.sha256 ((lock_bytes_seg w off sz).drop (signatureLenOf sz)))).take
        RIPEMD160_SIZE
  · rw [if_neg (by simpa using hmm)]
    simp only [hmm, ne_eq, not_true_eq_false, iff_false]
    cases hg : digestGroup rest with
    | error c =>
      have hc := digestGroup_error_code rest c hg
      subst hc
      dsimp only
      decide
    | ok group_tail =>
      cases ht : digestTrailing (e.input_witnesses.drop e.inputs_len) with
      | error c =>
        have hc := digestTrailing_error_code _ c ht
        rcases hc with hc | hc <;> subst hc <;> dsimp only <;> decide
      | ok trailing_tail =>
        dsimp only
        split_ifs <;> decide
  · rw [if_pos (by simpa using hmm)]
    simpa using hmm

/-- Witness for C5 at the concrete `baseEnv`, where the hash matches. -/
theorem claim_C5_witness :
    main baseEnv = ERROR_PUBKEY_RIPEMD160_HASH ↔
      baseEnv.args_bytes ≠
        (baseEnv.ripemd160 (baseEnv.sha256
          ((lock_bytes_seg (List.replicate 97 2) 0 97).drop (signatureLenOf 97)))).take
          RIPEMD160_SIZE := by
  exact claim_C5_pubkey_hash_computation baseEnv (List.replicate 97 2) [] 0 97
    rfl rfl (by decide) rfl rfl (by decide) (by decide) rfl (by decide) (by decide)

/-- C1.  Table-variant sighash: when every load succeeds and every check up
to the pubkey hash passes, the run verifies the ECDSA signature against
exactly SHA256 of the transaction hash, then the 8-byte little-endian length
of witness 0 followed by witness 0 with `signature_len` bytes zero-filled at
the lock offset, then every further grouped-input witness and every trailing
witness, each as its 8-byte little-endian length followed by its unmodified
bytes. -/
theorem claim_C1_table_sighash (e : Env) (w : Bytes) (gs ts : List Bytes)
    (off sz : Nat)
    (h1 : e.ckb_load_script_ret = CKB_SUCCESS) (h2 : e.mol_script_verify_ok = true)
    (h3 : e.args_bytes.length = RIPEMD160_SIZE) (h4 : e.ckb_load_tx_hash_ret = CKB_SUCCESS)
    (h5 : e.group_witnesses = WItem.ok w :: gs.map WItem.ok)
    (h6 : e.extract_witness_lock w = some (off, sz))
    (hsz : sz = 97 ∨ sz = 98 ∨ sz = 129 ∨ sz = 130)
    (hsecp : e.secp_init_ret = 0)
    (hsig : e.parse_compact_ok ((lock_bytes_seg w off sz).take 64) = true)
    (hpk : e.parse_pubkey_ok ((lock_bytes_seg w off sz).drop (signatureLenOf sz)) = true)
    (hmm : e.args_bytes =
      (e.ripemd160 (e.sha256 ((lock_bytes_seg w off sz).drop (signatureLenOf sz)))).take
        RIPEMD160_SIZE)
    (htw : e.input_witnesses.drop e.inputs_len = ts.map WItem.ok)
    (hts : ∀ d ∈ ts, d.length ≤ MAX_WITNESS_SIZE) :
    main e =
      (if e.ecdsa_verify ((lock_bytes_seg w off sz).take 64)
          (e.sha256 (e.tx_hash ++ le8 w.length ++
            zeroFill w off (signatureLenOf sz) ++ lenPrefixed gs ++ lenPrefixed ts))
          ((lock_bytes_seg w off sz).drop (signatureLenOf sz)) = false
        then ERROR_SECP_VERIFICATION else CKB_SUCCESS) := by
  rw [main_eq_verifyAfterLock e h1 h2 h3 h4 h5 h6]
  simp only [verifyAfterLock]
  rw [if_neg (lockLen_ok_cases sz hsz), if_neg (by simp [hsecp]),
    if_neg (by simp [hsig]), if_neg (by simp [hpk]), if_neg (by simpa using hmm),
    digestGroup_map_ok gs, htw, digestTrailing_map_ok ts hts]

/-- Witness for C1: a run with one extra grouped witness and one trailing
witness. -/
theorem claim_C1_witness :
    main { baseEnv with
        group_witnesses := [WItem.ok (List.replicate 97 2), WItem.ok [9]],
        input_witnesses := [WItem.ok [4], WItem.ok [5, 5]],
        inputs_len := 1 } =
      (if ({ baseEnv with
          group_witnesses := [WItem.ok (List.replicate 97 2), WItem.ok [9]],
          input_witnesses := [WItem.ok [4], WItem.ok [5, 5]],
          inputs_len := 1 } : Env).ecdsa_verify
          ((lock_bytes_seg (List.replicate 97 2) 0 97).take 64)
          (({ baseEnv with
              group_witnesses := [WItem.ok (List.replicate 97 2), WItem.ok [9]],
              input_witnesses := [WItem.ok [4], WItem.ok [5, 5]],
              inputs_len := 1 } : Env).sha256
            (({ baseEnv with
                group_witnesses := [WItem.ok (List.replicate 97 2), WItem.ok [9]],
                input_witnesses := [WItem.ok [4], WItem.ok [5, 5]],
                inputs_len := 1 } : Env).tx_hash ++
              le8 (List.replicate 97 2).length ++
              zeroFill (List.replicate 97 2) 0 (signatureLenOf 97) ++
              lenPrefixed [[9]] ++ lenPrefixed [[5, 5]]))
          ((lock_bytes_seg (List.replicate 97 2) 0 97).drop (signatureLenOf 97)) = false
        then ERROR_SECP_VERIFICATION else CKB_SUCCESS) := by
  exact claim_C1_table_sighash
    { baseEnv with
        group_witnesses := [WItem.ok (List.replicate 97 2), WItem.ok [9]],
        input_witnesses := [WItem.ok [4], WItem.ok [5, 5]],
        inputs_len := 1 }
    (List.replicate 97 2) [[9]] [[5, 5]] 0 97
    rfl rfl (by decide) rfl rfl (by decide) (by decide) rfl (by decide) (by decide)
    (by decide) rfl (by decide)

/-- The inner result of `verifyAfterLock` is zero exactly when every one of
its steps succeeds. -/
lemma verifyAfterLock_eq_zero_iff (e : Env) (w : Bytes) (rest : List WItem)
    (off sz : Nat) :
    verifyAfterLock e w rest off sz = CKB_SUCCESS ↔
      ((sz = 97 ∨ sz = 98 ∨ sz = 129 ∨ sz = 130) ∧
       e.secp_init_ret = 0 ∧
       e.parse_compact_ok ((lock_bytes_seg w off sz).take 64) = true ∧
       e.parse_pubkey_ok ((lock_bytes_seg w off sz).drop (signatureLenOf sz)) = true ∧
       e.args_bytes =
         (e.ripemd160 (e.sha256 ((lock_bytes_seg w off sz).drop (signatureLenOf sz)))).take
           RIPEMD160_SIZE ∧
       ∃ group_tail trailing_tail,
         digestGroup rest = .ok group_tail ∧
         digestTrailing (e.input_witnesses.drop e.inputs_len) = .ok trailing_tail ∧
         e.ecdsa_verify ((lock_bytes_seg w off sz).take 64)
           (e.sha256 (e.tx_hash ++ le8 w.length ++
             zeroFill w off (signatureLenOf sz) ++ group_tail ++ trailing_tail))
           ((lock_bytes_seg w off sz).drop (signatureLenOf sz)) = true) := by
  constructor
  · intro h
    simp only [verifyAfterLock] at h
    split_ifs at h with hA hB hC hD hE
    · exact absurd h (by decide)
    · exact absurd h hB
    · exact absurd h (by decide)
    · exact absurd h (by decide)
    · exact absurd h (by decide)
    · have hsz : sz = 97 ∨ sz = 98 ∨ sz = 129 ∨ sz = 130 := by
        unfold RECOVERABLE_SIGNATURE_SIZE NONE_RECOVERABLE_SIGNATURE_SIZE
          COMPRESSED_PUBKEY_SIZE NONE_COMPRESSED_PUBKEY_SIZE at hA
        omega
      refine ⟨hsz, by omega, by simpa using hC, by simpa using hD, by simpa using hE, ?_⟩
      cases hg : digestGroup rest with
      | error c =>
        rw [hg] at h
        dsimp only at h
        have hc := digestGroup_error_code rest c hg
        subst hc
        exact absurd h (by decide)
      | ok group_tail =>
        rw [hg] at h
        dsimp only at h
        cases ht : digestTrailing (e.input_witnesses.drop e.inputs_len) with
        | error c =>
          rw [ht] at h
          dsimp only at h
          have hc := digestTrailing_error_code _ c ht
          rcases hc with hc | hc <;> subst hc <;> exact absurd h (by decide)
        | ok trailing_tail =>
          rw [ht] at h
          dsimp only at h
          refine ⟨group_tail, trailing_tail, rfl, rfl, ?_⟩
          by_cases hv : e.ecdsa_verify ((lock_bytes_seg w off sz).take 64)
              (e.sha256 (e.tx_hash ++ le8 w.length ++
                zeroFill w off (signatureLenOf sz) ++ group_tail ++ trailing_tail))
              ((lock_bytes_seg w off sz).drop (signatureLenOf sz)) = false
          · rw [if_pos hv] at h
            exact absurd h (by decide)
          · simpa using hv
  · rintro ⟨hsz, hsecp, hsig, hpk, hmm, group_tail, trailing_tail, hg, ht, hv⟩
    simp only [verifyAfterLock]
    rw [if_neg (lockLen_ok_cases sz hsz), if_neg (by simp [hsecp]),
      if_neg (by simp [hsig]), if_neg (by simp [hpk]), if_neg (by simpa using hmm),
      hg]
    dsimp only
    rw [ht]
    dsimp only
    rw [if_neg (by rw [hv]; decide)]

/-- C8.  Result-code contract: the run returns 0 exactly when every step
succeeds — script load and molecule decode, 20-byte argument length,
transaction-hash load, witness-0 load, lock extraction, lock-length check,
secp context init, compact-signature parse, pubkey parse, pubkey-hash
comparison, both digest loops, and the final ECDSA verification. -/
theorem claim_C8_zero_iff_all_steps (e : Env) :
    main e = CKB_SUCCESS ↔
      (e.ckb_load_script_ret = CKB_SUCCESS ∧ e.mol_script_verify_ok = true ∧
       e.args_bytes.length = RIPEMD160_SIZE ∧ e.ckb_load_tx_hash_ret = CKB_SUCCESS ∧
       ∃ w rest off sz,
         e.group_witnesses = WItem.ok w :: rest ∧
         e.extract_witness_lock w = some (off, sz) ∧
         (sz = 97 ∨ sz = 98 ∨ sz = 129 ∨ sz = 130) ∧
         e.secp_init_ret = 0 ∧
         e.parse_compact_ok ((lock_bytes_seg w off sz).take 64) = true ∧
         e.parse_pubkey_ok ((lock_bytes_seg w off sz).drop (signatureLenOf sz)) = true ∧
         e.args_bytes =
           (e.ripemd160 (e.sha256 ((lock_bytes_seg w off sz).drop (signatureLenOf sz)))).take
             RIPEMD160_SIZE ∧
         ∃ group_tail trailing_tail,
           digestGroup rest = .ok group_tail ∧
           digestTrailing (e.input_witnesses.drop e.inputs_len) = .ok trailing_tail ∧
           e.ecdsa_verify ((lock_bytes_seg w off sz).take 64)
             (e.sha256 (e.tx_hash ++ le8 w.length ++
               zeroFill w off (signatureLenOf sz) ++ group_tail ++ trailing_tail))
             ((lock_bytes_seg w off sz).drop (signatureLenOf sz)) = true) := by
  constructor
  · intro h
    by_cases h1 : e.ckb_load_script_ret = CKB_SUCCESS
    swap
    · rw [main, if_pos h1] at h
      exact absurd h (by decide)
    by_cases h2 : e.mol_script_verify_ok = true
    swap
    · rw [main, if_neg (by simpa using h1),
        if_pos (by simpa using h2)] at h
      exact absurd h (by decide)
    by_cases h3 : e.args_bytes.length = RIPEMD160_SIZE
    swap
    · rw [main, if_neg (by simpa using h1), if_neg (by simp [h2]),
        if_pos h3] at h
      exact absurd h (by decide)
    by_cases h4 : e.ckb_load_tx_hash_ret = CKB_SUCCESS
    swap
    · rw [main, if_neg (by simpa using h1), if_neg (by simp [h2]),
        if_neg (by simpa using h3), if_pos h4] at h
      exact absurd h (by decide)
    refine ⟨h1, h2, h3, h4, ?_⟩
    cases hgw : e.group_witnesses with
    | nil =>
      rw [main, if_neg (by simpa using h1), if_neg (by simp [h2]),
        if_neg (by simpa using h3), if_neg (by simpa using h4), hgw] at h
      dsimp only at h
      exact absurd h (by decide)
    | cons i rest =>
      cases i with
      | err c =>
        rw [main, if_neg (by simpa using h1), if_neg (by simp [h2]),
          if_neg (by simpa using h3), if_neg (by simpa using h4), hgw] at h
        dsimp only at h
        exact absurd h (by decide)
      | ok w =>
        cases hex : e.extract_witness_lock w with
        | none =>
          rw [main, if_neg (by simpa using h1), if_neg (by simp [h2]),
            if_neg (by simpa using h3), if_neg (by simpa using h4), hgw] at h
          dsimp only at h
          rw [hex] at h
          dsimp only at h
          exact absurd h (by decide)
        | some p =>
          obtain ⟨off, sz⟩ := p
          rw [main_eq_verifyAfterLock e h1 h2 h3 h4 hgw hex,
            verifyAfterLock_eq_zero_iff] at h
          exact ⟨w, rest, off, sz, rfl, hex, h⟩
  · rintro ⟨h1, h2, h3, h4, w, rest, off, sz, hgw, hex, hrest⟩
    rw [main_eq_verifyAfterLock e h1 h2 h3 h4 hgw hex, verifyAfterLock_eq_zero_iff]
    exact hrest

lemma baseEnv_lockInRange : baseEnv.lockInRange := by
  intro w off sz h
  simp only [baseEnv] at h
  by_cases hw : w.length = 97
  · rw [if_pos hw] at h
    cases h
    omega
  · rw [if_neg hw] at h
    simp at h

/-- C6.  Zero-fill frame property: the program equals its scratch-copy
rendering `mainScratchSpec`, in which the digest copy of witness 0 is built
up front and every check (compact-signature parse, pubkey parse, pubkey-hash
comparison) reads the original witness bytes; and the zero-filled buffer
keeps the witness length and agrees with the original witness outside the
`signature_len`-byte signature sub-field, which it zeroes. -/
theorem claim_C6_zero_fill_frame (e : Env) (hr : e.lockInRange) (w : Bytes)
    (off n : Nat) (h : off + n ≤ w.length) :
    main e = mainScratchSpec e ∧
    (zeroFill w off n).length = w.length ∧
    ∀ j, j < w.length →
      (zeroFill w off n).getD j 0 =
        if off ≤ j ∧ j < off + n then 0 else w.getD j 0 :=
  ⟨main_eq_scratchSpec e hr, zeroFill_length w off n h,
    fun j hj => zeroFill_frame w off n j h hj⟩

/-- Witness for C6 at `baseEnv` and a concrete three-byte buffer. -/
theorem claim_C6_witness :
    main baseEnv = mainScratchSpec baseEnv ∧
    (zeroFill [1, 2, 3] 1 1).length = 3 ∧
    (zeroFill [1, 2, 3] 1 1).getD 0 0 = 1 ∧
    (zeroFill [1, 2, 3] 1 1).getD 1 0 = 0 ∧
    (zeroFill [1, 2, 3] 1 1).getD 2 0 = 3 := by
  obtain ⟨hA, hB, hC⟩ := claim_C6_zero_fill_frame baseEnv baseEnv_lockInRange
    [1, 2, 3] 1 1 (by decide)
  refine ⟨hA, by simpa using hB, ?_, ?_, ?_⟩
  · have h0 := hC 0 (by decide)
    simpa using h0
  · have h1 := hC 1 (by decide)
    simpa using h1
  · have h2 := hC 2 (by decide)
    simpa using h2

/-- C9.  Single verification pass: the run decodes, length-checks,
hash-checks and signature-verifies only witness 0 — the result is unchanged
under any replacement of the later grouped witnesses and of the trailing
witnesses that leaves the two digest streams equal, and under any
replacement of the lock extractor that agrees on witness 0. -/
theorem claim_C9_single_pass (e : Env) (f : Bytes → Option (Nat × Nat))
    (w : Bytes) (rest rest2 iw2 : List WItem)
    (hgw : e.group_witnesses = WItem.ok w :: rest)
    (hf : f w = e.extract_witness_lock w)
    (hg : digestGroup rest2 = digestGroup rest)
    (ht : digestTrailing (iw2.drop e.inputs_len) =
      digestTrailing (e.input_witnesses.drop e.inputs_len)) :
    main { e with extract_witness_lock := f,
                  group_witnesses := WItem.ok w :: rest2,
                  input_witnesses := iw2 } = main e := by
  cases hex : e.extract_witness_lock w with
  | none => simp [main, hgw, hf, hex]
  | some p =>
    obtain ⟨off, sz⟩ := p
    have HV : verifyAfterLock
        { e with extract_witness_lock := f,
                 group_witnesses := WItem.ok w :: rest2,
                 input_witnesses := iw2 }
        w rest2 off sz = verifyAfterLock e w rest off sz := by
      simp only [verifyAfterLock]
      rw [hg, ht]
    simp [main, hgw, hf, hex, HV]

/-- Witness for C9: replacing the extractor off witness 0 and the (empty)
tails leaves the result unchanged. -/
theorem claim_C9_witness :
    main { baseEnv with
        extract_witness_lock := fun _ => some (0, 97),
        group_witnesses := [WItem.ok (List.replicate 97 2)],
        input_witnesses := [] } = main baseEnv := by
  exact claim_C9_single_pass baseEnv (fun _ => some (0, 97))
    (List.replicate 97 2) [] [] [] rfl (by decide) rfl rfl

/-- A concrete environment whose first witness carries a 98-byte lock
field (65-byte recoverable signature followed by a 33-byte pubkey). -/
def envC10 : Env :=
  { baseEnv with
    group_witnesses := [WItem.ok (List.replicate 98 2)],
    extract_witness_lock := fun _ => some (0, 98) }

/-- C10.  Recovery-byte noninterference: for a lock field of length 98 or
130 (65-byte recoverable signature), changing the recovery-indicator byte at
lock offset 64 of witness 0 cannot change the result: the compact parse
reads only the first 64 lock bytes, the pubkey slice starts at offset 65,
and the byte lies inside the zero-filled signature sub-field of the digest
copy. -/
theorem claim_C10_recovery_byte_noninterference (e : Env) (w : Bytes)
    (rest : List WItem) (off sz b : Nat)
    (hsz : sz = 98 ∨ sz = 130)
    (hgw : e.group_witnesses = WItem.ok w :: rest)
    (hex : e.extract_witness_lock w = some (off, sz))
    (hex2 : e.extract_witness_lock (w.set (off + 64) b) = some (off, sz)) :
    main { e with group_witnesses := WItem.ok (w.set (off + 64) b) :: rest } =
      main e := by
  have hsig : signatureLenOf sz = 65 := by
    rcases hsz with h | h <;> subst h <;> decide
  have HV : verifyAfterLock
      { e with group_witnesses := WItem.ok (w.set (off + 64) b) :: rest }
      (w.set (off + 64) b) rest off sz = verifyAfterLock e w rest off sz := by
    simp only [verifyAfterLock, hsig]
    rw [lock_bytes_take64_set w off sz b, lock_bytes_drop_set w off sz b 65 (by omega),
      zeroFill_set w off 65 b (by omega), List.length_set]
  simp [main, hgw, hex, hex2, HV]

/-- Witness for C10 with the recovery byte rewritten from 2 to 5. -/
theorem claim_C10_witness :
    main { envC10 with
        group_witnesses := [WItem.ok ((List.replicate 98 2).set 64 5)] } =
      main envC10 := by
  have h := claim_C10_recovery_byte_noninterference envC10 (List.replicate 98 2)
    [] 0 98 5 (Or.inl rfl) rfl rfl rfl
  simpa using h

/-- C7 (amended).  In the two digest loops the out-of-bound signal on the
first absent index ends iteration normally (an all-loaded sequence digests
to a success value, the empty sequence included) while any other load
failure terminates the run with `ERROR_SYSCALL` — stated both for the loop
digests themselves and for `main`, whose grouped-input loop (respectively
trailing loop) hits the failing load after an all-loaded prefix; at the
initial witness-0 load, however, the code maps every non-success return —
the out-of-bound signal included — to `ERROR_SYSCALL`. -/
theorem claim_C7_amended_eos_and_errors :
    (∀ gs : List Bytes, digestGroup (gs.map WItem.ok) = .ok (lenPrefixed gs)) ∧
    (∀ ts : List Bytes, (∀ d ∈ ts, d.length ≤ MAX_WITNESS_SIZE) →
      digestTrailing (ts.map WItem.ok) = .ok (lenPrefixed ts)) ∧
    (∀ (gs : List Bytes) (c : Int) (l2 : List WItem),
      digestGroup (gs.map WItem.ok ++ WItem.err c :: l2) = .error ERROR_SYSCALL) ∧
    (∀ (ts : List Bytes) (c : Int) (l2 : List WItem),
      (∀ d ∈ ts, d.length ≤ MAX_WITNESS_SIZE) →
      digestTrailing (ts.map WItem.ok ++ WItem.err c :: l2) = .error ERROR_SYSCALL) ∧
    (∀ e : Env, e.ckb_load_script_ret = CKB_SUCCESS → e.mol_script_verify_ok = true →
      e.args_bytes.length = RIPEMD160_SIZE → e.ckb_load_tx_hash_ret = CKB_SUCCESS →
      (e.group_witnesses = [] → main e = ERROR_SYSCALL) ∧
      (∀ (c : Int) (rest : List WItem),
        e.group_witnesses = WItem.err c :: rest → main e = ERROR_SYSCALL)) ∧
    (∀ (e : Env) (w : Bytes) (gs : List Bytes) (c : Int) (l2 : List WItem)
        (off sz : Nat),
      e.ckb_load_script_ret = CKB_SUCCESS → e.mol_script_verify_ok = true →
      e.args_bytes.length = RIPEMD160_SIZE → e.ckb_load_tx_hash_ret = CKB_SUCCESS →
      e.group_witnesses = WItem.ok w :: (gs.map WItem.ok ++ WItem.err c :: l2) →
      e.extract_witness_lock w = some (off, sz) →
      (sz = 97 ∨ sz = 98 ∨ sz = 129 ∨ sz = 130) →
      e.secp_init_ret = 0 →
      e.parse_compact_ok ((lock_bytes_seg w off sz).take 64) = true →
      e.parse_pubkey_ok ((lock_bytes_seg w off sz).drop (signatureLenOf sz)) = true →
      e.args_bytes =
        (e.ripemd160 (e.sha256 ((lock_bytes_seg w off sz).drop (signatureLenOf sz)))).take
          RIPEMD160_SIZE →
      main e = ERROR_SYSCALL) ∧
    (∀ (e : Env) (w : Bytes) (gs ts : List Bytes) (c : Int) (l2 : List WItem)
        (off sz : Nat),
      e.ckb_load_script_ret = CKB_SUCCESS → e.mol_script_verify_ok = true →
      e.args_bytes.length = RIPEMD160_SIZE → e.ckb_load_tx_hash_ret = CKB_SUCCESS →
      e.group_witnesses = WItem.ok w :: gs.map WItem.ok →
      e.extract_witness_lock w = some (off, sz) →
      (sz = 97 ∨ sz = 98 ∨ sz = 129 ∨ sz = 130) →
      e.secp_init_ret = 0 →
      e.parse_compact_ok ((lock_bytes_seg w off sz).take 64) = true →
      e.parse_pubkey_ok ((lock_bytes_seg w off sz).drop (signatureLenOf sz)) = true →
      e.args_bytes =
        (e.ripemd160 (e.sha256 ((lock_bytes_seg w off sz).drop (signatureLenOf sz)))).take
          RIPEMD160_SIZE →
      e.input_witnesses.drop e.inputs_len = ts.map WItem.ok ++ WItem.err c :: l2 →
      (∀ d ∈ ts, d.length ≤ MAX_WITNESS_SIZE) →
      main e = ERROR_SYSCALL) := by
  refine ⟨digestGroup_map_ok, digestTrailing_map_ok, digestGroup_first_err,
    digestTrailing_first_err, ?_, ?_, ?_⟩
  · intro e h1 h2 h3 h4
    constructor
    · intro hgw
      simp [main, h1, h2, h3, h4, hgw]
    · intro c rest hgw
      simp [main, h1, h2, h3, h4, hgw]
  · intro e w gs c l2 off sz h1 h2 h3 h4 hgw hex hsz hsecp hsig hpk hmm
    rw [main_eq_verifyAfterLock e h1 h2 h3 h4 hgw hex]
    simp only [verifyAfterLock]
    rw [if_neg (lockLen_ok_cases sz hsz), if_neg (by simp [hsecp]),
      if_neg (by simp [hsig]), if_neg (by simp [hpk]), if_neg (by simpa using hmm),
      digestGroup_first_err gs c l2]
  · intro e w gs ts c l2 off sz h1 h2 h3 h4 hgw hex hsz hsecp hsig hpk hmm htw hts
    rw [main_eq_verifyAfterLock e h1 h2 h3 h4 hgw hex]
    simp only [verifyAfterLock]
    rw [if_neg (lockLen_ok_cases sz hsz), if_neg (by simp [hsecp]),
      if_neg (by simp [hsig]), if_neg (by simp [hpk]), if_neg (by simpa using hmm),
      digestGroup_map_ok gs]
    dsimp only
    rw [htw, digestTrailing_first_err ts c l2 hts]

/-- An environment whose grouped-input scope has no witness at index 0. -/
def envEmptyGroup : Env := { baseEnv with group_witnesses := [] }

/-- Counterexample to C7 as frozen: at the very first witness load the
out-of-bound signal on the first absent index (index 0 of an empty
grouped-witness sequence) is an error — the run returns `ERROR_SYSCALL`
instead of terminating normally. -/
theorem claim_C7_counterexample :
    envEmptyGroup.group_witnesses = [] ∧
    main envEmptyGroup = ERROR_SYSCALL ∧
    ERROR_SYSCALL ≠ CKB_SUCCESS := by decide

/-- Witness for the amended C7 at concrete sequences and runs: normal
end-of-sequence termination of both loops, `ERROR_SYSCALL` from a failing
load in either loop (both at digest level and for the whole run), and
`ERROR_SYSCALL` from the witness-0 load on out-of-bound as well as on a
failing return code. -/
theorem claim_C7_witness :
    digestGroup [WItem.ok [5]] = .ok (lenPrefixed [[5]]) ∧
    digestTrailing [WItem.ok [5]] = .ok (lenPrefixed [[5]]) ∧
    digestGroup [WItem.ok [5], WItem.err 7] = .error ERROR_SYSCALL ∧
    digestTrailing [WItem.ok [5], WItem.err 7] = .error ERROR_SYSCALL ∧
    main envEmptyGroup = ERROR_SYSCALL ∧
    main { baseEnv with group_witnesses := [WItem.err 7] } = ERROR_SYSCALL ∧
    main { baseEnv with
        group_witnesses := [WItem.ok (List.replicate 97 2), WItem.err 7] } =
      ERROR_SYSCALL ∧
    main { baseEnv with input_witnesses := [WItem.err 9] } = ERROR_SYSCALL := by
  obtain ⟨p1, p2, p3, p4, p5, p6, p7⟩ := claim_C7_amended_eos_and_errors
  refine ⟨p1 [[5]], p2 [[5]] (by decide), p3 [[5]] 7 [], p4 [[5]] 7 [] (by decide),
    (p5 envEmptyGroup rfl rfl (by decide) rfl).1 rfl,
    (p5 { baseEnv with group_witnesses := [WItem.err 7] } rfl rfl (by decide) rfl).2
      7 [] rfl,
    p6 { baseEnv with
        group_witnesses := [WItem.ok (List.replicate 97 2), WItem.err 7] }
      (List.replicate 97 2) [] 7 [] 0 97 rfl rfl (by decide) rfl rfl (by decide)
      (by decide) rfl (by decide) (by decide) (by decide),
    p7 { baseEnv with input_witnesses := [WItem.err 9] }
      (List.replicate 97 2) [] [] 9 [] 0 97 rfl rfl (by decide) rfl rfl (by decide)
      (by decide) rfl (by decide) (by decide) (by decide) rfl (by decide)⟩

/-- C3 is refuted by the code: the witness-0 load (and the grouped-witness
loop) never compares the reported length against `MAX_WITNESS_SIZE`, so an
oversized first witness is processed — here all the way to success — rather
than rejected with `ERROR_WITNESS_SIZE`; only the trailing-witness loop
implements the bound, accepting exactly 32768 bytes and rejecting 32769. -/
theorem claim_C3_oversized_not_rejected :
    bigWitness.length = 32769 ∧
    MAX_WITNESS_SIZE = 32768 ∧
    envOversized.group_witnesses = [WItem.ok bigWitness] ∧
    main envOversized = CKB_SUCCESS ∧
    ERROR_WITNESS_SIZE ≠ CKB_SUCCESS ∧
    digestGroup [WItem.ok bigWitness] = .ok (le8 bigWitness.length ++ bigWitness) ∧
    digestTrailing [WItem.ok bigWitness] = .error ERROR_WITNESS_SIZE ∧
    digestTrailing [WItem.ok (List.replicate 32768 2)] =
      .ok (le8 32768 ++ List.replicate 32768 2) := by
  refine ⟨bigWitness_length, rfl, rfl, by decide, by decide, ?_, ?_, ?_⟩
  · simp [digestGroup]
  · simp only [digestTrailing, bigWitness_length, MAX_WITNESS_SIZE]
    norm_num
  · simp only [digestTrailing, List.length_replicate, MAX_WITNESS_SIZE]
    norm_num

end SighashAll
